import Mathlib

/-!
Verification of the slot reservation / acquisition library (`edef.py` for the
LCLS event-definition pool, `edef/sc_buffer.py` for the SC-linac BSA buffer
pool).  The remote-variable bus (EPICS) is modelled as explicit state
parameters: slot names over poll iterations, free-slot counts as read by the
code, PV values and control limits as record fields, and writes as explicit
effect lists.  Each definition is a direct translation of the corresponding
Python function.
-/

namespace Edef

/-- Errors raised by the reservation paths.  `resourceExhausted` stands for
"No event definitions available." / "No BSA buffers available.",
`reservationTimeout` for "Could not reserve an EDEF." /
"Could not reserve a BSA buffer.". -/
inductive ReserveError where
  | resourceExhausted
  | reservationTimeout
deriving DecidableEq, Repr

/-- The EDEF pool scans `range(1, 16)`, i.e. slot ids 1..15
(`edef.py`, `reserve_edef`). -/
def edefRange : List Nat := List.range' 1 15

/-- The BSA-buffer pool scans `range(21, 50)`, i.e. slot ids 21..49
(`sc_buffer.py`, `reserve`). -/
def scRange : List Nat := List.range' 21 29

/-- One scan pass over a pool's address range: the first slot id whose NAME
variable currently reads as the desired name (`for num in range(..): if
edef_name == name: return num`).  `names` gives the name each slot's NAME
variable reads as at this instant. -/
def scanOnce (names : Nat → Option String) (range : List Nat) (desired : String) :
    Option Nat :=
  range.find? (fun num => names num == some desired)

/-- The 5-second / 50-ms poll loop runs `while time_elapsed < 5.0` with
`time_elapsed += 0.05` per iteration: 100 iterations. -/
def pollIters : Nat := 100

/-- The bounded poll: scan the range once per 50-ms iteration, succeeding on
the first iteration whose scan finds a match.  `names t` is the bus state
(slot id ↦ name) observed at iteration `t`. -/
def pollScan (names : Nat → Nat → Option String) (range : List Nat)
    (desired : String) : Option Nat :=
  (List.range pollIters).findSome? (fun t => scanOnce (names t) range desired)

/-- `EventDefinition.reserve_edef` (edef.py lines 91-111): write the desired
name to the claim variable, poll-scan slots 1..15 for up to 5 s; on timeout
read the pool's EDEFAVAIL count — below 1 means `resourceExhausted`, otherwise
`reservationTimeout`.  `num_remaining` is the value that EDEFAVAIL read
returns. -/
def reserve_edef (names : Nat → Nat → Option String) (desired : String)
    (num_remaining : Int) : Except ReserveError Nat :=
  match pollScan names edefRange desired with
  | some num => .ok num
  | none =>
    if num_remaining < 1 then .error .resourceExhausted
    else .error .reservationTimeout

/-- `BSABuffer.reserve` (sc_buffer.py lines 78-98): first check
`check_available()` (NFREEBSA > 0) and fail `resourceExhausted` immediately if
not; then write the name and poll-scan slots 21..49 for up to 5 s; on timeout
re-check availability to distinguish `resourceExhausted` from
`reservationTimeout`.  `freeAtStart` / `freeAtEnd` are the NFREEBSA values the
two `check_available` reads return. -/
def sc_reserve (freeAtStart : Int) (names : Nat → Nat → Option String)
    (desired : String) (freeAtEnd : Int) : Except ReserveError Nat :=
  if ¬ (freeAtStart > 0) then .error .resourceExhausted
  else
    match pollScan names scRange desired with
    | some num => .ok num
    | none =>
      if ¬ (freeAtEnd > 0) then .error .resourceExhausted
      else .error .reservationTimeout

/-! ## Buffer retrieval (C2) -/

/-- `EventDefinition.get_buffer` (edef.py lines 376-382), single-PV branch:
read the history array, and trim it to `n_measurements` when
`self.n_measurements > 0`; when the target is the unbounded sentinel
(`n_measurements ≤ 0`, conventionally -1) the rolling buffer is returned at
full length. -/
def edef_get_buffer {α : Type} (n_measurements : Int) (buff : List α) : List α :=
  if n_measurements > 0 then buff.take n_measurements.toNat else buff

/-- Index of the first iteration at which the HST_READY flag reads true, if it
occurs within `fuel` polls of the 50-ms loop
(`while not self.is_acquisition_complete(): time.sleep(0.05)`). -/
def firstReady (ready : Nat → Bool) (fuel : Nat) : Option Nat :=
  (List.range fuel).find? (fun t => ready t)

/-- `BSABuffer.get_buffer` (sc_buffer.py lines 411-425), single-PV branch:
read `actual_acquired = self.num_acquired()`; when it is positive, block
polling the HST_READY flag every 50 ms (no timeout — `none` means the loop is
still spinning after `fuel` polls); in every case the returned array is
`buff[0:actual_acquired]`.  The configured target count (`n_measurements`) is
never consulted.  The returned pair records how many 50-ms polls observed a
false flag before the flag read true (0 when the wait is skipped). -/
def sc_get_buffer {α : Type} (actual_acquired : Nat) (ready : Nat → Bool)
    (fuel : Nat) (buff : List α) : Option (Nat × List α) :=
  if actual_acquired > 0 then
    match firstReady ready fuel with
    | none => none
    | some t => some (t, buff.take actual_acquired)
  else
    some (0, buff.take actual_acquired)

/-! ## Clamped configuration properties (C6) -/

/-- A remote variable as seen through a pyepics PV object: its current value
and the control limits reported by `get_ctrlvars()`. -/
structure CtrlPV where
  value : Int
  lower_ctrl_limit : Int
  upper_ctrl_limit : Int
deriving DecidableEq, Repr

/-- The `n_avg` / `n_measurements` setters (edef.py lines 160-164 and 201-205,
sc_buffer.py lines 147-151 and 187-191): read `lopr`/`hopr` from the bus's
control limits at write time, then `put(min(hopr, max(lopr, v)))`. -/
def clamped_put (v : Int) (pv : CtrlPV) : CtrlPV :=
  { pv with value := min pv.upper_ctrl_limit (max pv.lower_ctrl_limit v) }

/-- The matching getters: `return self.<...>_pv.get()` — the bus's current
value, with no caching. -/
def pv_get (pv : CtrlPV) : Int :=
  pv.value

/-- Some other client on the bus writing the same variable out-of-band. -/
def external_put (w : Int) (pv : CtrlPV) : CtrlPV :=
  { pv with value := w }

/-! ## Constructor configuration writes (C7) -/

/-- The bus-writing configuration effects the constructors can perform. -/
inductive ConfigWrite where
  | setAvg (v : Int)
  | setMeas (v : Int)
  | setInclusionMasks (ms : List String)
  | setExclusionMasks (ms : List String)
  | setDestinationMode (m : Int)
  | setDestinationMasks (ms : List String)
  | setRateMode (m : Int)
  | setFixedRate (r : Int)
  | setAcRate (r : Int)
  | setTimeslots (ts : List Nat)
deriving DecidableEq, Repr

/-- The persistent configuration of one slot, as stored on the bus. -/
structure SlotConfig where
  avg : Int
  measurements : Int
  inclusionMasks : List String
  exclusionMasks : List String
  destinationMode : Int
  destinationMasks : List String
  rateMode : Int
  fixedRate : Int
  acRate : Int
  timeslots : List Nat
deriving DecidableEq, Repr

/-- Effect of a configuration write on a slot's stored configuration. -/
def applyConfigWrite (s : SlotConfig) (w : ConfigWrite) : SlotConfig :=
  match w with
  | .setAvg v => { s with avg := v }
  | .setMeas v => { s with measurements := v }
  | .setInclusionMasks ms => { s with inclusionMasks := ms }
  | .setExclusionMasks ms => { s with exclusionMasks := ms }
  | .setDestinationMode m => { s with destinationMode := m }
  | .setDestinationMasks ms => { s with destinationMasks := ms }
  | .setRateMode m => { s with rateMode := m }
  | .setFixedRate r => { s with fixedRate := r }
  | .setAcRate r => { s with acRate := r }
  | .setTimeslots ts => { s with timeslots := ts }

/-- Apply a constructor's configuration writes in order. -/
def applyConfigWrites (ws : List ConfigWrite) (s : SlotConfig) : SlotConfig :=
  ws.foldl applyConfigWrite s

/-- `EventDefinition.__init__` (edef.py lines 48-89): the configuration writes
it performs.  The whole configuration block is guarded by
`if edef_number is None` — a handle built from an already-known slot id writes
nothing. -/
def edef_init_writes (edef_number : Option Nat) (avg measurements : Int)
    (inclusion_masks exclusion_masks : Option (List String)) :
    List ConfigWrite :=
  match edef_number with
  | some _ => []
  | none =>
    [.setAvg avg, .setMeas measurements]
      ++ (match inclusion_masks with
          | some ms => [.setInclusionMasks ms]
          | none => [])
      ++ (match exclusion_masks with
          | some ms => [.setExclusionMasks ms]
          | none => [])

/-- `BSABuffer.__init__` (sc_buffer.py lines 19-68): the configuration writes
it performs, likewise guarded by `if number is None`. -/
def sc_init_writes (number : Option Nat) (avg measurements : Int)
    (destination_mode : Option Int) (destination_masks : Option (List String))
    (rate_mode fixed_rate ac_rate : Option Int)
    (timeslots : Option (List Nat)) : List ConfigWrite :=
  match number with
  | some _ => []
  | none =>
    [.setAvg avg, .setMeas measurements]
      ++ (match destination_mode with
          | some m => [.setDestinationMode m]
          | none => [])
      ++ (match destination_masks with
          | some ms => [.setDestinationMasks ms]
          | none => [])
      ++ (match rate_mode with
          | some m => [.setRateMode m]
          | none => [])
      ++ (match fixed_rate with
          | some r => [.setFixedRate r]
          | none => [])
      ++ (match ac_rate with
          | some r => [.setAcRate r]
          | none => [])
      ++ (match timeslots with
          | some ts => [.setTimeslots ts]
          | none => [])

/-! ## Callback subscription management (C5) -/

/-- A pyepics PV's callback registry: the next index it will hand out, and
the currently-installed (live) subscription indices. -/
structure PVCallbacks where
  nextIndex : Nat
  live : List Nat
deriving DecidableEq, Repr

/-- `pv.add_callback(cb)`: install a subscription and return its index. -/
def addCallback (pv : PVCallbacks) : Nat × PVCallbacks :=
  (pv.nextIndex, ⟨pv.nextIndex + 1, pv.nextIndex :: pv.live⟩)

/-- `pv.remove_callback(index)`; removing with a `None` index is a no-op. -/
def removeCallback (pv : PVCallbacks) (index : Option Nat) : PVCallbacks :=
  match index with
  | none => pv
  | some i => ⟨pv.nextIndex, pv.live.erase i⟩

/-- One observable property's callback bookkeeping on a handle: the PV's
registry, the stored user callback (`self._X_callback`; `none` is the
no-callback sentinel) and the stored subscription index
(`self._X_callback_index`).  User callbacks are represented by a numeric
identity, compared the way `new_callback == self._X_callback` compares
them. -/
structure CbState where
  pv : PVCallbacks
  cb : Option Nat
  idx : Option Nat
deriving DecidableEq, Repr

/-- The callback property setters (edef.py lines 138-147, 178-187, 219-228,
253-262; sc_buffer.py lines 125-134, 165-174, 205-214 — all textually
identical): return unchanged when the new callback equals the stored one;
otherwise, when a callback is stored, remove its subscription; store the new
callback; and when the new callback is not the sentinel, add a fresh
subscription and remember its index. -/
def setCallback (s : CbState) (newCb : Option Nat) : CbState :=
  if newCb = s.cb then s
  else
    let s1 : CbState :=
      if s.cb ≠ none then { s with pv := removeCallback s.pv s.idx } else s
    let s2 : CbState := { s1 with cb := newCb }
    match newCb with
    | none => s2
    | some _ =>
      let r := addCallback s2.pv
      { s2 with pv := r.2, idx := some r.1 }

/-- A handle's freshly-constructed per-property state
(`self._X_callback = None`, `self._X_callback_index = None`, no
subscriptions installed). -/
def initCbState : CbState :=
  ⟨⟨0, []⟩, none, none⟩

/-- The subscription invariant: with no stored callback no subscription is
live; with a stored callback exactly one subscription is live, its index is
the stored one, and it was really handed out by the registry. -/
def CbInv (s : CbState) : Prop :=
  (s.cb = none → s.pv.live = []) ∧
  (s.cb ≠ none → ∃ i, s.idx = some i ∧ s.pv.live = [i] ∧ i < s.pv.nextIndex)

/-! ## Timeslot selection (C8, C10) -/

/-- The list of active timeslots the `timeslots` getter computes
(sc_buffer.py lines 326-339): `for ts in range(1, 7)`, append `ts` when
`bitmask & (1 << (ts - 1)) > 1` (the source's comparison is `> 1`). -/
def sc_active_timeslots (bitmask : Nat) : List Nat :=
  (List.range' 1 6).filter (fun ts => decide (1 < bitmask &&& (1 <<< (ts - 1))))

/-- The `timeslots` getter itself: it computes `active_timeslots` but has no
return statement, so it falls off the end and returns `None`. -/
def sc_timeslots_getter (bitmask : Nat) : Option (List Nat) :=
  let _active := sc_active_timeslots bitmask
  none

/-- The instance attributes of a `BSABuffer` that a PV-name format string
could refer to for the slot id: `__init__` stores the id as `self.number`;
no attribute named `num` is ever assigned. -/
def bsa_slot_attr (number : Nat) : String → Option Nat :=
  fun a => if a = "number" then some number else none

/-- The `timeslots` setter (sc_buffer.py lines 341-347): normalize a single
int to a list, then for each ts in 1..6 write 1 or 0 to
`f"{prefix}:{self.num}:TS{ts}"`.  Evaluating that f-string looks up the
attribute `num` on the instance, raising AttributeError when it is absent.
The result is the list of (timeslot, value) writes performed, or the
error. -/
def sc_timeslots_setter (attrs : String → Option Nat) (ts_list : List Nat) :
    Except String (List (Nat × Nat)) :=
  (List.range' 1 6).foldlM
    (fun acc ts =>
      match attrs "num" with
      | none => .error "AttributeError: BSABuffer object has no attribute num"
      | some _ => .ok (acc ++ [(ts, if ts ∈ ts_list then 1 else 0)]))
    []

/-! ## Release and context-manager exit (C9) -/

/-- `BSABuffer.is_reserved` (sc_buffer.py lines 100-113):
`self.number is not None and self.number != 0`. -/
def sc_is_reserved (number : Option Nat) : Bool :=
  match number with
  | none => false
  | some n => n != 0

/-- The FREE variable of slot `n` of the BSA pool. -/
def sc_free_pv (n : Nat) : String :=
  "BSA:SYS0:1:" ++ toString n ++ ":FREE"

/-- `BSABuffer.release` (sc_buffer.py lines 507-513): raise when the buffer
is not reserved, otherwise write 1 to the slot's FREE variable.  The result
is the list of bus writes performed, or the raised message. -/
def sc_release (number : Option Nat) : Except String (List (String × Nat)) :=
  if sc_is_reserved number then
    .ok [(sc_free_pv (number.getD 0), 1)]
  else
    .error "Buffer was not reserved, cannot release."

/-- `BSABuffer.__exit__` (sc_buffer.py lines 518-519): the body is exactly
`self.release()`, with no exception handling of any kind. -/
def sc_exit (number : Option Nat) : Except String (List (String × Nat)) :=
  sc_release number

/-! ## Completion callbacks at start (C4) -/

/-- The two bus actions `start` performs when a completion callback is
supplied: subscribe the done-callback on the acquired-count (CNT) variable,
and arm by writing 1 to CTRL. -/
inductive StartAction where
  | registerDoneCallback
  | armWrite
deriving DecidableEq, Repr

/-- `EventDefinition.start` (edef.py lines 331-346): raise when not reserved;
when a callback is supplied, read CNTMAX (the target count, as of arm time)
and register the done callback, then `self.ctrl_pv.put(1)`.  Returns the
captured threshold (when a callback was given) and the action sequence in
program order. -/
def edef_start (reserved : Bool) (cntmax : Int) (hasCallback : Bool) :
    Except String (Option Int × List StartAction) :=
  if ¬ reserved then .error "EDEF was not reserved, cannot acquire data."
  else if hasCallback then
    .ok (some cntmax, [.registerDoneCallback, .armWrite])
  else
    .ok (none, [.armWrite])

/-- The action sequence of `BSABuffer.start` (sc_buffer.py lines 349-374)
restricted to callback registration and arming: the callback (when supplied)
is registered on the CNT variable before `self.ctrl_pv.put(1)`.  No target
count is read or captured. -/
def sc_start_actions (hasCallback : Bool) : List StartAction :=
  if hasCallback then [.registerDoneCallback, .armWrite] else [.armWrite]

/-- `EventDefinition._done_callback` (edef.py lines 348-353) delivered over a
stream of acquired-count updates: a value different from the captured
threshold returns without firing; on the first value equal to the threshold,
the user callback runs and the subscription removes itself, so no later
update can fire it.  Returns how many times the user callback runs. -/
def edef_done_fires (threshold : Int) : List Int → Nat
  | [] => 0
  | v :: rest => if v = threshold then 1 else edef_done_fires threshold rest

/-- `BSABuffer._done_callback` (sc_buffer.py lines 389-391) delivered over a
stream of acquired-count updates: it runs the user callback on the very first
update, whatever its value, then removes itself.  No threshold is
consulted. -/
def sc_done_fires : List Int → Nat
  | [] => 0
  | _ :: _ => 1

/-! ## Filter masks (C3) -/

/-- `caput` of a boolean value to one bit variable of a per-bit field. -/
def writeBit (bits : Nat → Bool) (n : Nat) (v : Bool) : Nat → Bool :=
  fun b => if b = n then v else bits b

/-- edef.py's `NUM_MASK_BITS` constant: 160 mask bits. -/
def edef_num_mask_bits : Nat := 160

/-- `EventDefinition.set_masks` (edef.py lines 301-311), list branch: for
each mask name look up its bit number in the name cache (`none` — a missing
key — raises KeyError) and `caput` 1 to that bit's INCM/EXCM variable.  No
bit is ever cleared.  `bits` is the field's per-bit bus state. -/
def edef_set_masks (cache : String → Option Nat) :
    List String → (Nat → Bool) → Option (Nat → Bool)
  | [], bits => some bits
  | m :: rest, bits =>
    match cache m with
    | none => none
    | some bitNum => edef_set_masks cache rest (writeBit bits bitNum true)

/-- `EventDefinition.get_masks` (edef.py lines 291-299), over an explicit
list of bit numbers: append the reverse-cache name (a missing reverse entry
raises KeyError) of every bit that reads 1. -/
def edef_get_masks_aux (rcache : Nat → Option String) (bits : Nat → Bool) :
    List Nat → Option (List String)
  | [] => some []
  | bitNum :: rest =>
    if bits bitNum then
      match rcache bitNum with
      | none => none
      | some name => (edef_get_masks_aux rcache bits rest).map (name :: ·)
    else
      edef_get_masks_aux rcache bits rest

/-- `EventDefinition.get_masks`: scan bit numbers 1 through
`NUM_MASK_BITS`. -/
def edef_get_masks (rcache : Nat → Option String) (bits : Nat → Bool) :
    Option (List String) :=
  edef_get_masks_aux rcache bits (List.range' 1 edef_num_mask_bits)

/-- The destination-mask bus state of one BSA buffer: the combined DESTMASK
variable and the individual DST{n} selection variables. -/
structure SCMaskState where
  destmask : Nat
  dst : Nat → Bool

/-- `BSABuffer.clear_masks` (sc_buffer.py lines 272-276): DESTMASK := 0, and
DST0 through DST5 := 0 (`for i in range(0, 6)`). -/
def sc_clear_masks (s : SCMaskState) : SCMaskState :=
  { destmask := 0, dst := fun n => if n < 6 then false else s.dst n }

/-- The loop of the `destination_masks` setter, list branch (sc_buffer.py
lines 264-269): for each mask name look up its bit number (KeyError when
absent), `caput` 1 to DST{bit}, and OR `1 << bit` into the running
bitmask. -/
def sc_set_masks_loop (cache : String → Option Nat) :
    List String → Nat → SCMaskState → Option (Nat × SCMaskState)
  | [], bit_mask, s => some (bit_mask, s)
  | m :: rest, bit_mask, s =>
    match cache m with
    | none => none
    | some bitNum =>
      sc_set_masks_loop cache rest (bit_mask ||| (1 <<< bitNum))
        { s with dst := writeBit s.dst bitNum true }

/-- `BSABuffer.destination_masks` setter (sc_buffer.py lines 252-270), list
branch: `clear_masks()` first, then the loop starting from bitmask 0, and
finally write the accumulated bitmask to DESTMASK. -/
def sc_set_destination_masks (cache : String → Option Nat)
    (masks : List String) (s : SCMaskState) : Option SCMaskState :=
  (sc_set_masks_loop cache masks 0 (sc_clear_masks s)).map
    (fun r => { r.2 with destmask := r.1 })

/-- `BSABuffer.destination_masks` getter (sc_buffer.py lines 231-250): read
DESTMASK and collect, over the reverse cache's (bit number, name) entries in
insertion order, every name whose bit satisfies
`bit_mask & (1 << bit_num) != 0`. -/
def sc_get_destination_masks (rcache : List (Nat × String))
    (s : SCMaskState) : List String :=
  rcache.filterMap
    (fun e => if s.destmask &&& (1 <<< e.1) ≠ 0 then some e.2 else none)

/-- A concrete two-entry bit-mask name cache ("A" ↦ bit 1, "B" ↦ bit 2). -/
def exCache : String → Option Nat :=
  fun n => if n = "A" then some 1 else if n = "B" then some 2 else none

/-- The reverse of `exCache`, keyed by bit number. -/
def exRCache : Nat → Option String :=
  fun b => if b = 1 then some "A" else if b = 2 then some "B" else none

/-- An EventDefinition mask field with bit 1 ("A") already set. -/
def exBits0 : Nat → Bool :=
  writeBit (fun _ => false) 1 true

/-- The EventDefinition mask field after writing the mask set {"B"} over
`exBits0`. -/
def exBitsResult : Nat → Bool :=
  (edef_set_masks exCache ["B"] exBits0).getD (fun _ => false)

/-- The BSA destination-mask state after writing the mask set {"B"} over a
state whose DESTMASK was 3 and whose DST bits were all 1. -/
def exSCResult : SCMaskState :=
  (sc_set_destination_masks exCache ["B"] ⟨3, fun _ => true⟩).getD
    ⟨0, fun _ => false⟩

end Edef

namespace Edef

/-! ## Theorems for C1 and C2 -/

/-- C1: a reservation attempt against a pool reporting zero free slots fails
with `resourceExhausted` and never `reservationTimeout`; a reservation attempt
with free slots available but no slot in the pool's range showing the desired
name within the 5-second / 50-ms poll bound fails with `reservationTimeout`.
Stated for both pools: the EDEF pool reads its free count only after the
timed-out scan, the BSA pool checks availability both before and after. -/
theorem reserve_exhausted_vs_timeout
    (names : Nat → Nat → Option String) (desired : String)
    (rem f1 f2 : Int) :
    (pollScan names edefRange desired = none → rem ≤ 0 →
      reserve_edef names desired rem = .error .resourceExhausted) ∧
    (rem ≤ 0 → reserve_edef names desired rem ≠ .error .reservationTimeout) ∧
    (pollScan names edefRange desired = none → 1 ≤ rem →
      reserve_edef names desired rem = .error .reservationTimeout) ∧
    (f1 ≤ 0 → sc_reserve f1 names desired f2 = .error .resourceExhausted) ∧
    (f1 ≤ 0 ∨ f2 ≤ 0 →
      sc_reserve f1 names desired f2 ≠ .error .reservationTimeout) ∧
    (pollScan names scRange desired = none → 1 ≤ f1 → 1 ≤ f2 →
      sc_reserve f1 names desired f2 = .error .reservationTimeout) := by
  refine ⟨?_, ?_, ?_, ?_, ?_, ?_⟩
  · intro hscan hrem
    simp [reserve_edef, hscan, if_pos (by omega : rem < 1)]
  · intro hrem
    unfold reserve_edef
    cases hscan : pollScan names edefRange desired with
    | some num => simp
    | none => simp [if_pos (by omega : rem < 1)]
  · intro hscan hrem
    simp [reserve_edef, hscan, if_neg (by omega : ¬ rem < 1)]
  · intro h1
    unfold sc_reserve
    rw [if_pos (show ¬ f1 > 0 by omega)]
  · intro h12
    unfold sc_reserve
    by_cases h1 : f1 > 0
    · have h2 : f2 ≤ 0 := by omega
      rw [if_neg (not_not_intro h1)]
      cases hscan : pollScan names scRange desired with
      | some num => simp
      | none => rw [if_pos (show ¬ f2 > 0 by omega)]; simp
    · rw [if_pos h1]
      simp
  · intro hscan h1 h2
    unfold sc_reserve
    rw [if_neg (show ¬ ¬ f1 > 0 by omega)]
    simp only [hscan]
    rw [if_neg (show ¬ ¬ f2 > 0 by omega)]

/-- Witness for C1: on a bus where no slot ever shows the name, the EDEF pool
with free count 0 fails `resourceExhausted`, with free count 3 it fails
`reservationTimeout`; the BSA pool with free count 0 at the first check fails
`resourceExhausted` regardless of the scan, and with free counts 3/3 and no
match it fails `reservationTimeout`. -/
theorem reserve_exhausted_vs_timeout_witness :
    reserve_edef (fun _ _ => none) "x" 0 = .error .resourceExhausted ∧
    reserve_edef (fun _ _ => none) "x" 3 = .error .reservationTimeout ∧
    sc_reserve 0 (fun _ _ => none) "x" 3 = .error .resourceExhausted ∧
    sc_reserve 3 (fun _ _ => none) "x" 3 = .error .reservationTimeout := by
  have hnone : ∀ r : List Nat,
      pollScan (fun _ _ => (none : Option String)) r "x" = none := by
    intro r
    simp [pollScan, scanOnce, List.findSome?_eq_none_iff, List.find?_eq_none]
  refine ⟨?_, ?_, ?_, ?_⟩
  · exact (reserve_exhausted_vs_timeout _ "x" 0 0 0).1 (hnone _) (by norm_num)
  · exact (reserve_exhausted_vs_timeout _ "x" 3 0 0).2.2.1 (hnone _) (by norm_num)
  · exact (reserve_exhausted_vs_timeout (fun _ _ => none) "x" 0 0 3).2.2.2.1
      (by norm_num)
  · exact (reserve_exhausted_vs_timeout _ "x" 0 3 3).2.2.2.2.2 (hnone _)
      (by norm_num) (by norm_num)

/-- C2: a count-equality-mode (`EventDefinition`) buffer retrieval returns the
bus array trimmed to the configured target count when the target is bounded
(positive) and the full rolling-buffer array when the target is the unbounded
sentinel (non-positive); a ready-flag-mode (`BSABuffer`) retrieval with a
positive acquired count blocks polling the ready flag (returning once the flag
first reads true, and not before), skips the wait entirely when the acquired
count is zero, and always trims to the actual acquired count — `sc_get_buffer`
does not even take the configured target as an input. -/
theorem get_buffer_trim {α : Type} (n : Int) (a fuel t : Nat)
    (ready : Nat → Bool) (buff : List α) :
    (0 < n → edef_get_buffer n buff = buff.take n.toNat) ∧
    (n ≤ 0 → edef_get_buffer n buff = buff) ∧
    (0 < a → firstReady ready fuel = some t →
      sc_get_buffer a ready fuel buff = some (t, buff.take a)) ∧
    (0 < a → firstReady ready fuel = none →
      sc_get_buffer a ready fuel buff = none) ∧
    (sc_get_buffer 0 ready fuel buff = some (0, [])) := by
  refine ⟨?_, ?_, ?_, ?_, ?_⟩
  · intro h
    simp [edef_get_buffer, h]
  · intro h
    simp [edef_get_buffer, show ¬ n > 0 by omega]
  · intro ha hr
    simp [sc_get_buffer, ha, hr]
  · intro ha hr
    simp [sc_get_buffer, ha, hr]
  · simp [sc_get_buffer]

/-- Witness for C2 at concrete inputs: target 2 over a 4-element array trims
to 2 elements; sentinel -1 returns the full array; acquired count 3 with a
ready flag that first reads true on the second poll returns
(1, first 3 elements); acquired count 3 with a never-true flag keeps blocking;
acquired count 0 skips the wait even with no fuel. -/
theorem get_buffer_trim_witness :
    edef_get_buffer 2 [10, 20, 30, 40] = [10, 20] ∧
    edef_get_buffer (-1) [10, 20, 30, 40] = [10, 20, 30, 40] ∧
    sc_get_buffer 3 (fun i => i == 1) 5 [10, 20, 30, 40] =
      some (1, [10, 20, 30]) ∧
    sc_get_buffer 3 (fun _ => false) 5 [10, 20, 30, 40] = none ∧
    sc_get_buffer 0 (fun _ => false) 0 [10, 20, 30, 40] = some (0, []) := by
  refine ⟨?_, ?_, ?_, ?_, ?_⟩
  · exact (get_buffer_trim 2 0 0 0 (fun _ => false) [10, 20, 30, 40]).1
      (by norm_num)
  · exact (get_buffer_trim (-1) 0 0 0 (fun _ => false)
      [10, 20, 30, 40]).2.1 (by norm_num)
  · exact (get_buffer_trim 0 3 5 1 (fun i => i == 1) [10, 20, 30, 40]).2.2.1
      (by norm_num) (by decide)
  · exact (get_buffer_trim 0 3 5 0 (fun _ => false) [10, 20, 30, 40]).2.2.2.1
      (by norm_num) (by decide)
  · exact (get_buffer_trim 0 0 0 0 (fun _ => false) [10, 20, 30, 40]).2.2.2.2

/-- C6: writing value `v` to the averaging-depth or measurement-count property
stores `min hi (max lo v)` on the bus, where `lo`/`hi` are the control limits
the bus reports at write time; a read immediately after returns exactly that
clamped value (so an in-range `v` reads back as `v`); and the read path is a
direct bus read, not a cache: after an external write `w` the property reads
`w`. -/
theorem clamped_put_get (v w : Int) (pv : CtrlPV) :
    pv_get (clamped_put v pv) =
      min pv.upper_ctrl_limit (max pv.lower_ctrl_limit v) ∧
    (pv.lower_ctrl_limit ≤ v → v ≤ pv.upper_ctrl_limit →
      pv_get (clamped_put v pv) = v) ∧
    pv_get (external_put w (clamped_put v pv)) = w := by
  refine ⟨rfl, ?_, rfl⟩
  intro hlo hhi
  simp [pv_get, clamped_put]
  omega

/-- Witness for C6: with limits [1, 2800], writing 5 reads back 5; writing
10000 reads back the clamp 2800; an external write of 7 afterwards reads 7. -/
theorem clamped_put_get_witness :
    pv_get (clamped_put 5 ⟨100, 1, 2800⟩) = 5 ∧
    pv_get (clamped_put 10000 ⟨100, 1, 2800⟩) = 2800 ∧
    pv_get (external_put 7 (clamped_put 5 ⟨100, 1, 2800⟩)) = 7 := by
  refine ⟨?_, ?_, ?_⟩
  · exact (clamped_put_get 5 0 ⟨100, 1, 2800⟩).2.1 (by norm_num) (by norm_num)
  · exact ((clamped_put_get 10000 0 ⟨100, 1, 2800⟩).1).trans (by norm_num)
  · exact (clamped_put_get 5 7 ⟨100, 1, 2800⟩).2.2

/-- C7: constructing a handle from an already-known slot id performs no
configuration writes at all — both constructors guard their entire
configuration block with `if <id> is None` — so every pre-existing
configuration value of the slot (averaging depth, measurement count, masks,
modes, rates, timeslots) is left unchanged.  Defaults are applied only on the
fresh name-scan path (`id = none`). -/
theorem init_existing_id_writes_nothing (n : Nat) (avg meas : Int)
    (im em dms : Option (List String)) (dm rm fr ar : Option Int)
    (ts : Option (List Nat)) (s : SlotConfig) :
    edef_init_writes (some n) avg meas im em = [] ∧
    sc_init_writes (some n) avg meas dm dms rm fr ar ts = [] ∧
    applyConfigWrites (edef_init_writes (some n) avg meas im em) s = s ∧
    applyConfigWrites (sc_init_writes (some n) avg meas dm dms rm fr ar ts) s
      = s := by
  exact ⟨rfl, rfl, rfl, rfl⟩

/-! ## C5: subscription invariant -/

lemma cbInv_initCbState : CbInv initCbState := by
  constructor
  · intro _; rfl
  · intro h; exact absurd rfl h

lemma cbInv_setCallback {s : CbState} (h : CbInv s) (newCb : Option Nat) :
    CbInv (setCallback s newCb) := by
  obtain ⟨h0, h1⟩ := h
  by_cases heq : newCb = s.cb
  · rw [setCallback, if_pos heq]; exact ⟨h0, h1⟩
  · rw [setCallback, if_neg heq]
    cases hc : s.cb with
    | none =>
      cases newCb with
      | none => exact absurd hc.symm heq
      | some c =>
        have hlive : s.pv.live = [] := h0 hc
        refine ⟨by simp, fun _ => ⟨s.pv.nextIndex, ?_⟩⟩
        simp [hc, addCallback, hlive]
    | some c =>
      obtain ⟨i, hidx, hlive, hlt⟩ := h1 (by simp [hc])
      cases newCb with
      | none =>
        refine ⟨fun _ => ?_, by simp⟩
        simp [hc, hidx, removeCallback, hlive]
      | some c' =>
        refine ⟨by simp, fun _ => ⟨s.pv.nextIndex, ?_⟩⟩
        simp [hc, hidx, removeCallback, addCallback, hlive]

lemma cbInv_foldl (ops : List (Option Nat)) :
    CbInv (ops.foldl setCallback initCbState) := by
  have h : ∀ s : CbState, CbInv s → CbInv (ops.foldl setCallback s) := by
    induction ops with
    | nil => exact fun s hs => hs
    | cons op rest ih => exact fun s hs => ih _ (cbInv_setCallback hs op)
  exact h _ cbInv_initCbState

lemma cbInv_length {s : CbState} (h : CbInv s) : s.pv.live.length ≤ 1 := by
  obtain ⟨h0, h1⟩ := h
  cases hc : s.cb with
  | none => simp [h0 hc]
  | some c =>
    obtain ⟨i, _, hlive, _⟩ := h1 (by simp [hc])
    simp [hlive]

lemma setCallback_replaces {s : CbState} (h : CbInv s) {c c' i : Nat}
    (hcb : s.cb = some c) (hidx : s.idx = some i) (hne : c' ≠ c) :
    i ∉ (setCallback s (some c')).pv.live := by
  obtain ⟨h0, h1⟩ := h
  obtain ⟨j, hj, hlive, hlt⟩ := h1 (by simp [hcb])
  have hij : i = j := by rw [hidx] at hj; exact (Option.some.inj hj)
  subst hij
  have hneq : (some c' : Option Nat) ≠ s.cb := by
    rw [hcb]; simp [hne]
  rw [setCallback, if_neg hneq]
  simp [hcb, hidx, removeCallback, addCallback, hlive]
  omega

/-- C5: over any sequence of callback set/unset operations on one observable
property, at most one subscription for that property is ever live: the live
set after any prefix has length ≤ 1 (including right after any further set),
and installing a new callback over an existing one always tears the prior
subscription down before adding the new one — the prior subscription index is
no longer live afterwards, so two consecutively installed callbacks never
both receive deliveries. -/
theorem at_most_one_subscription (ops : List (Option Nat)) (newCb : Option Nat) :
    ((ops.foldl setCallback initCbState).pv.live.length ≤ 1) ∧
    ((setCallback (ops.foldl setCallback initCbState) newCb).pv.live.length
      ≤ 1) ∧
    (∀ c c' i, (ops.foldl setCallback initCbState).cb = some c →
      (ops.foldl setCallback initCbState).idx = some i →
      newCb = some c' → c' ≠ c →
      i ∉ (setCallback (ops.foldl setCallback initCbState) newCb).pv.live) := by
  have hInv := cbInv_foldl ops
  refine ⟨cbInv_length hInv, cbInv_length (cbInv_setCallback hInv newCb), ?_⟩
  intro c c' i hcb hidx hnew hne
  subst hnew
  exact setCallback_replaces hInv hcb hidx hne

/-- Witness for C5: after installing callback 1 (one live subscription, index
0), installing callback 2 removes subscription 0 before adding the new one:
0 is not live afterwards, and the live count stays ≤ 1. -/
theorem at_most_one_subscription_witness :
    ((([some 1] : List (Option Nat)).foldl setCallback initCbState).pv.live.length
      ≤ 1) ∧
    0 ∉ (setCallback (([some 1] : List (Option Nat)).foldl setCallback
      initCbState) (some 2)).pv.live := by
  refine ⟨(at_most_one_subscription [some 1] (some 2)).1, ?_⟩
  exact (at_most_one_subscription [some 1] (some 2)).2.2 1 2 0 (by decide)
    (by decide) rfl (by decide)

/-! ## C10: the timeslots getter -/

/-- C10: the timeslots getter always returns `None` — the active-timeslot
list it computes is never returned to the caller (for bitmask 3 that computed
list is `[2]`, yet the getter still yields `none`). -/
theorem timeslots_getter_returns_none (bitmask : Nat) :
    sc_timeslots_getter bitmask = none ∧ sc_active_timeslots 3 = [2] :=
  ⟨rfl, by decide⟩

/-! ## C8: the timeslots setter -/

/-- C8 (code bug): every invocation of the timeslots setter raises
AttributeError while formatting the first PV name — the f-string refers to
`self.num`, but `BSABuffer` stores the slot id as `self.number` and never
assigns an attribute `num` — so not a single boolean timeslot write is
performed, for any supplied timeslot set. -/
theorem timeslots_setter_raises (number : Nat) (ts_list : List Nat) :
    sc_timeslots_setter (bsa_slot_attr number) ts_list =
      .error "AttributeError: BSABuffer object has no attribute num" := by
  rfl

/-! ## C9: release failure during context-manager exit -/

/-- C9 counterexample: `__exit__` on an unreserved buffer (slot id 0)
propagates the release failure to the caller, contradicting the claim that a
teardown-time release failure is logged or ignored and never propagated. -/
theorem exit_propagates_release_failure :
    sc_exit (some 0) = .error "Buffer was not reserved, cannot release." := by
  rfl

/-- C9 amended: `__exit__` is exactly `self.release()` with no exception
handling, so a release failure during context-manager exit propagates to the
caller unchanged; in particular `__exit__` on any unreserved handle
raises. -/
theorem exit_forwards_release (number : Option Nat) :
    sc_exit number = sc_release number ∧
    (sc_is_reserved number = false →
      sc_exit number = .error "Buffer was not reserved, cannot release.") := by
  refine ⟨rfl, ?_⟩
  intro h
  simp [sc_exit, sc_release, h]

/-- Witness for the amended C9: `__exit__` on a handle with no slot id
raises the release error. -/
theorem exit_forwards_release_witness :
    sc_exit none = .error "Buffer was not reserved, cannot release." :=
  (exit_forwards_release none).2 rfl

/-! ## C4: completion callbacks -/

/-- C4 counterexample: for a `BSABuffer` armed with target count 5, the very
first acquired-count update — value 1, below the threshold — already fires the
completion callback, because `BSABuffer._done_callback` consults no threshold;
an `EventDefinition` with captured threshold 5 would not fire on that
update. -/
theorem sc_done_fires_below_threshold :
    sc_done_fires [1] = 1 ∧ (1 : Int) ≠ 5 ∧ edef_done_fires 5 [1] = 0 := by
  decide

/-- C4 amended: for both resource types the completion callback is registered
on the acquired-count variable before the control variable is armed.  For
`EventDefinition` the target count read at arm time is captured as the
threshold and the done callback fires exactly once, on the first update equal
to that threshold — never on updates differing from it, and at most once on
any stream — then unsubscribes itself.  For `BSABuffer` no threshold is
captured: the done callback fires exactly once, on the first acquired-count
update whatever its value, then unsubscribes itself. -/
theorem done_callback_behaviour (cntmax threshold : Int)
    (updates : List Int) :
    edef_start true cntmax true =
      .ok (some cntmax, [.registerDoneCallback, .armWrite]) ∧
    sc_start_actions true = [.registerDoneCallback, .armWrite] ∧
    (threshold ∈ updates → edef_done_fires threshold updates = 1) ∧
    ((∀ v ∈ updates, v ≠ threshold) → edef_done_fires threshold updates = 0) ∧
    edef_done_fires threshold updates ≤ 1 ∧
    (updates ≠ [] → sc_done_fires updates = 1) := by
  refine ⟨rfl, rfl, ?_, ?_, ?_, ?_⟩
  · induction updates with
    | nil => intro hmem; cases hmem
    | cons v rest ih =>
      intro hmem
      by_cases hv : v = threshold
      · simp [edef_done_fires, hv]
      · rcases List.mem_cons.mp hmem with h | h
        · exact absurd h.symm hv
        · simp [edef_done_fires, hv, ih h]
  · induction updates with
    | nil => intro _; rfl
    | cons v rest ih =>
      intro hall
      have hv : v ≠ threshold := hall v (by simp)
      simp only [edef_done_fires, if_neg hv]
      exact ih (fun u hu => hall u (by simp [hu]))
  · induction updates with
    | nil => simp [edef_done_fires]
    | cons v rest ih =>
      by_cases hv : v = threshold
      · simp [edef_done_fires, hv]
      · simp only [edef_done_fires, if_neg hv]
        exact ih
  · intro hne
    cases updates with
    | nil => exact absurd rfl hne
    | cons v rest => rfl

/-- Witness for the amended C4: with threshold 5, the stream [3, 5, 5] fires
the EventDefinition callback exactly once, the stream [1, 2] never fires it,
and any nonempty stream fires the BSABuffer callback exactly once. -/
theorem done_callback_behaviour_witness :
    edef_done_fires 5 [3, 5, 5] = 1 ∧ edef_done_fires 5 [1, 2] = 0 ∧
    sc_done_fires [7] = 1 := by
  refine ⟨?_, ?_, ?_⟩
  · exact (done_callback_behaviour 500 5 [3, 5, 5]).2.2.1 (by decide)
  · exact (done_callback_behaviour 500 5 [1, 2]).2.2.2.1 (by decide)
  · exact (done_callback_behaviour 500 5 [7]).2.2.2.2.2 (by decide)

/-! ## C3: mask write semantics -/

lemma edef_set_masks_spec (cache : String → Option Nat) :
    ∀ (M : List String) (bits bits' : Nat → Bool),
      edef_set_masks cache M bits = some bits' →
      ∀ b, (bits' b = true ↔ bits b = true ∨ ∃ m ∈ M, cache m = some b) := by
  intro M
  induction M with
  | nil =>
    intro bits bits' h b
    simp only [edef_set_masks, Option.some.injEq] at h
    subst h
    simp
  | cons m rest ih =>
    intro bits bits' h b
    simp only [edef_set_masks] at h
    cases hc : cache m with
    | none => rw [hc] at h; cases h
    | some bn =>
      rw [hc] at h
      rw [ih _ _ h b]
      constructor
      · rintro (hb | ⟨m', hm', hcm'⟩)
        · by_cases hbn : b = bn
          · subst hbn
            exact Or.inr ⟨m, by simp, hc⟩
          · exact Or.inl (by simpa [writeBit, hbn] using hb)
        · exact Or.inr ⟨m', by simp [hm'], hcm'⟩
      · rintro (hb | ⟨m', hm', hcm'⟩)
        · by_cases hbn : b = bn
          · subst hbn
            exact Or.inl (by simp [writeBit])
          · exact Or.inl (by simpa [writeBit, hbn] using hb)
        · rcases List.mem_cons.mp hm' with h' | h'
          · subst h'
            rw [hc] at hcm'
            have hb : bn = b := Option.some.inj hcm'
            subst hb
            exact Or.inl (by simp [writeBit])
          · exact Or.inr ⟨m', h', hcm'⟩

lemma and_one_shiftLeft_ne_zero (x b : Nat) :
    (x &&& (1 <<< b) ≠ 0) ↔ x.testBit b = true := by
  rw [Nat.one_shiftLeft, Nat.and_two_pow]
  cases h : x.testBit b with
  | false => simp
  | true => simp [(Nat.two_pow_pos b).ne']

lemma sc_set_masks_loop_spec (cache : String → Option Nat) :
    ∀ (M : List String) (acc : Nat) (s : SCMaskState) (r : Nat × SCMaskState),
      sc_set_masks_loop cache M acc s = some r →
      ∀ b, (r.1.testBit b = true ↔
        acc.testBit b = true ∨ ∃ m ∈ M, cache m = some b) := by
  intro M
  induction M with
  | nil =>
    intro acc s r h b
    simp only [sc_set_masks_loop, Option.some.injEq] at h
    subst h
    simp
  | cons m rest ih =>
    intro acc s r h b
    simp only [sc_set_masks_loop] at h
    cases hc : cache m with
    | none => rw [hc] at h; cases h
    | some bn =>
      rw [hc] at h
      rw [ih _ _ _ h b]
      rw [Nat.testBit_or, Nat.one_shiftLeft, Nat.testBit_two_pow]
      constructor
      · intro hor
        rcases hor with hd | ⟨m', hm', hcm'⟩
        · rcases Bool.or_eq_true_iff.mp hd with ha | hbn
          · exact Or.inl ha
          · have : bn = b := of_decide_eq_true hbn
            subst this
            exact Or.inr ⟨m, by simp, hc⟩
        · exact Or.inr ⟨m', by simp [hm'], hcm'⟩
      · intro hor
        rcases hor with ha | ⟨m', hm', hcm'⟩
        · exact Or.inl (by simp [ha])
        · rcases List.mem_cons.mp hm' with h' | h'
          · subst h'
            rw [hc] at hcm'
            have hb : bn = b := Option.some.inj hcm'
            exact Or.inl (by simp [hb])
          · exact Or.inr ⟨m', h', hcm'⟩

lemma sc_set_masks_loop_dom (cache : String → Option Nat) :
    ∀ (M : List String) (acc : Nat) (s : SCMaskState) (r : Nat × SCMaskState),
      sc_set_masks_loop cache M acc s = some r →
      ∀ m ∈ M, ∃ b, cache m = some b := by
  intro M
  induction M with
  | nil => intro acc s r _ m hm; cases hm
  | cons m0 rest ih =>
    intro acc s r h m hm
    simp only [sc_set_masks_loop] at h
    cases hc : cache m0 with
    | none => rw [hc] at h; cases h
    | some bn =>
      rw [hc] at h
      rcases List.mem_cons.mp hm with h' | h'
      · subst h'; exact ⟨bn, hc⟩
      · exact ih _ _ _ h m h'

lemma mem_sc_get_destination_masks (rcache : List (Nat × String))
    (s : SCMaskState) (nm : String) :
    nm ∈ sc_get_destination_masks rcache s ↔
      ∃ b, (b, nm) ∈ rcache ∧ s.destmask &&& (1 <<< b) ≠ 0 := by
  unfold sc_get_destination_masks
  rw [List.mem_filterMap]
  constructor
  · rintro ⟨⟨b, n⟩, he, hfe⟩
    dsimp at hfe
    by_cases hcond : s.destmask &&& (1 <<< b) ≠ 0
    · rw [if_pos hcond] at hfe
      have : n = nm := Option.some.inj hfe
      subst this
      exact ⟨b, he, hcond⟩
    · rw [if_neg hcond] at hfe
      cases hfe
  · rintro ⟨b, hb, hcond⟩
    exact ⟨(b, nm), hb, by simp [hcond]⟩

/-- C3 counterexample: on an EventDefinition mask field whose bit 1 ("A") is
already set, writing the mask set {"B"} and reading the masks back yields
["A", "B"], not ["B"]: `set_masks` clears nothing first, so a bit set by a
previous write and outside the new set survives — the claimed full-replace
semantics fail. -/
theorem set_masks_not_full_replace :
    (edef_set_masks exCache ["B"] exBits0).bind (edef_get_masks exRCache)
      = some ["A", "B"] ∧
    (some ["A", "B"] : Option (List String)) ≠ some ["B"] := by
  exact ⟨rfl, by decide⟩

/-- C3 amended: full-replace mask semantics hold for `BSABuffer` destination
masks — with a consistent, injective bit-name cache, after writing mask set M
the getter returns exactly the names of M (any previously-set bit outside M
is cleared first) — but not for `EventDefinition.set_masks`, which merges: it
sets exactly the bits named in M and leaves every other bit unchanged, so
bits set by earlier writes survive outside M. -/
theorem destination_masks_full_replace
    (cache : String → Option Nat) (rcache : List (Nat × String))
    (M : List String) (s s' : SCMaskState) (bits bits' : Nat → Bool)
    (hinj : ∀ n1 n2 b, cache n1 = some b → cache n2 = some b → n1 = n2)
    (hcons : ∀ b nm, (b, nm) ∈ rcache ↔ cache nm = some b)
    (hset : sc_set_destination_masks cache M s = some s')
    (hedef : edef_set_masks cache M bits = some bits') :
    (∀ nm, nm ∈ sc_get_destination_masks rcache s' ↔ nm ∈ M) ∧
    (∀ b, bits' b = true ↔ bits b = true ∨ ∃ m ∈ M, cache m = some b) := by
  refine ⟨?_, edef_set_masks_spec cache M bits bits' hedef⟩
  intro nm
  simp only [sc_set_destination_masks, Option.map_eq_some'] at hset
  obtain ⟨r, hloop, hs'⟩ := hset
  have hdest : s'.destmask = r.1 := by rw [← hs']
  have hbit : ∀ b, (r.1.testBit b = true ↔ ∃ m ∈ M, cache m = some b) := by
    intro b
    rw [sc_set_masks_loop_spec cache M 0 (sc_clear_masks s) r hloop b]
    simp
  rw [mem_sc_get_destination_masks]
  constructor
  · rintro ⟨b, hbr, hcond⟩
    rw [hdest, and_one_shiftLeft_ne_zero] at hcond
    obtain ⟨m, hmM, hcm⟩ := (hbit b).mp hcond
    have hnm : cache nm = some b := (hcons b nm).mp hbr
    have : nm = m := hinj nm m b hnm hcm
    rw [this]
    exact hmM
  · intro hmM
    obtain ⟨b, hb⟩ := sc_set_masks_loop_dom cache M 0 (sc_clear_masks s) r
      hloop nm hmM
    refine ⟨b, (hcons b nm).mpr hb, ?_⟩
    rw [hdest, and_one_shiftLeft_ne_zero]
    exact (hbit b).mpr ⟨nm, hmM, hb⟩

lemma exCache_inj (n1 n2 : String) (b : Nat) (h1 : exCache n1 = some b)
    (h2 : exCache n2 = some b) : n1 = n2 := by
  unfold exCache at h1 h2
  split_ifs at h1 h2 <;> simp_all <;> omega

lemma exRCache_cons (b : Nat) (nm : String) :
    (b, nm) ∈ ([(1, "A"), (2, "B")] : List (Nat × String)) ↔
      exCache nm = some b := by
  constructor
  · intro h
    simp only [List.mem_cons, List.not_mem_nil, or_false,
      Prod.mk.injEq] at h
    rcases h with ⟨hb, hn⟩ | ⟨hb, hn⟩ <;> subst hb <;> subst hn <;> rfl
  · intro h
    unfold exCache at h
    split_ifs at h with h1 h2
    · subst h1
      have : (1 : Nat) = b := Option.some.inj h
      subst this
      simp
    · subst h2
      have : (2 : Nat) = b := Option.some.inj h
      subst this
      simp

/-- Witness for the amended C3: writing {"B"} to a BSA buffer whose DESTMASK
was 3 leaves exactly "B" readable (the stale "A" bit is gone), while on the
EventDefinition side the previously-set "A" bit (bit 1) is still set after
writing {"B"}. -/
theorem destination_masks_full_replace_witness :
    "B" ∈ sc_get_destination_masks [(1, "A"), (2, "B")] exSCResult ∧
    "A" ∉ sc_get_destination_masks [(1, "A"), (2, "B")] exSCResult ∧
    exBitsResult 1 = true := by
  have h := destination_masks_full_replace exCache [(1, "A"), (2, "B")]
    ["B"] ⟨3, fun _ => true⟩ exSCResult exBits0 exBitsResult
    exCache_inj exRCache_cons rfl rfl
  refine ⟨(h.1 "B").mpr (by decide), ?_, (h.2 1).mpr (Or.inl rfl)⟩
  intro hmem
  have := (h.1 "A").mp hmem
  simp at this

end Edef
